import Mathlib

/-!
Verification of the KuCoin REST client (src/exchanges/kucoin.py).

The development shallowly embeds the client's request-signing and
response-handling pipeline:

* `order_params_for_sig` — canonical query string from a parameter mapping
  (`Client._order_params_for_sig`);
* `generate_signature` — HMAC-SHA256 over the base64-encoded signed message
  (`Client._generate_signature`), with SHA-256, HMAC, base64 and hex encoding
  defined executably from their standard definitions (the Python source calls
  `hashlib` / `hmac` / `base64` for these);
* `handle_response` — envelope unwrapping and last-timestamp state
  (`Client._handle_response`), with Python's `in` / `[]` semantics on parsed
  JSON values modelled explicitly;
* `build_request` — header and query/body dispatch (`Client._request`);
* the data-dictionary builders of the endpoint methods with optional
  parameters (`get_all_balances`, `get_deposits`, `get_dealt_orders`).

Machine words are `Nat` reduced modulo `2 ^ 32` where overflow matters; byte
strings are `List Nat` of values below 256.
-/

/-- A Python value as it occurs in the client's parameter dictionaries:
`None`, an `int`, or a `str`. -/
inductive PyVal where
  | none : PyVal
  | int : Int → PyVal
  | str : String → PyVal
deriving DecidableEq, Repr

/-- Python truthiness for `PyVal`: `None` and `0` and `""` are falsy. -/
def PyVal.truthy : PyVal → Bool
  | .none => false
  | .int n => n != 0
  | .str s => s != ""

/-- Python `str()` of a `PyVal`, as used by `"{}={}".format(key, value)`. -/
def PyVal.pyStr : PyVal → String
  | .none => "None"
  | .int n => toString n
  | .str s => s

/-- A parameter mapping (`data` dict): key/value pairs in insertion order. -/
abbrev Params := List (String × PyVal)

/-- Comparison of character lists, lexicographic by Unicode code point:
Python's `<=` on `str`. -/
def chars_le : List Char → List Char → Bool
  | [], _ => true
  | _ :: _, [] => false
  | a :: as, b :: bs =>
      if a.toNat < b.toNat then true
      else if b.toNat < a.toNat then false
      else chars_le as bs

/-- Python's `a <= b` on strings. -/
def str_le (a b : String) : Bool := chars_le a.data b.data

/-- Lexicographic comparison of byte strings; the byte-wise order in which
the canonical query string's keys are claimed to appear (applied to their
UTF-8 encodings). -/
def bytes_le : List Nat → List Nat → Bool
  | [], _ => true
  | _ :: _, [] => false
  | a :: as, b :: bs => if a < b then true else if b < a then false else bytes_le as bs

/-- Insert a pair into a key-sorted list, before the first pair whose key is
not smaller (so earlier pairs stay left of later equal-keyed pairs, matching
Python's stable `sorted`). -/
def insert_kv (p : String × PyVal) : Params → Params
  | [] => [p]
  | q :: rest => if str_le p.1 q.1 then p :: q :: rest else q :: insert_kv p rest

/-- Stable insertion sort of a parameter list by key, modelling Python's
`sorted(data)` over the dict's keys. -/
def sort_kv : Params → Params
  | [] => []
  | p :: rest => insert_kv p (sort_kv rest)

/-- `Client._order_params_for_sig`: sort the keys, render each pair as
`key=value`, and join with `&`. -/
def order_params_for_sig (data : Params) : String :=
  String.intercalate "&" ((sort_kv data).map (fun kv => kv.1 ++ "=" ++ kv.2.pyStr))

/-- UTF-8 encoding of one Unicode scalar value. -/
def utf8Char (c : Nat) : List Nat :=
  if c < 128 then [c]
  else if c < 2048 then [192 + c / 64, 128 + c % 64]
  else if c < 65536 then [224 + c / 4096, 128 + c / 64 % 64, 128 + c % 64]
  else [240 + c / 262144, 128 + c / 4096 % 64, 128 + c / 64 % 64, 128 + c % 64]

/-- UTF-8 encoding of a character list. -/
def utf8_chars (cs : List Char) : List Nat :=
  cs.foldr (fun c acc => utf8Char c.toNat ++ acc) []

/-- UTF-8 encoding of a string (Python's `str.encode('utf-8')`). -/
def utf8 (s : String) : List Nat := utf8_chars s.data

/-- The base64 alphabet. -/
def b64_alphabet : List Char :=
  "ABCDEFGHIJKLMNOPQRSTUVWXYZabcdefghijklmnopqrstuvwxyz0123456789+/".data

/-- Byte value of the base64 alphabet character at `n`. -/
def b64_char (n : Nat) : Nat := (b64_alphabet.getD n 'A').toNat

/-- Standard base64 encoding of a byte string, with `=` (byte 61) padding
(Python's `base64.b64encode`). -/
def b64encode : List Nat → List Nat
  | a :: b :: c :: rest =>
      b64_char (a / 4) :: b64_char (a % 4 * 16 + b / 16) ::
        b64_char (b % 16 * 4 + c / 64) :: b64_char (c % 64) :: b64encode rest
  | [a, b] => [b64_char (a / 4), b64_char (a % 4 * 16 + b / 16), b64_char (b % 16 * 4), 61]
  | [a] => [b64_char (a / 4), b64_char (a % 4 * 16), 61, 61]
  | [] => []

/-- Reduce modulo `2 ^ 32`. -/
def w32 (n : Nat) : Nat := n % 4294967296

/-- 32-bit right rotation, for `x < 2 ^ 32`. -/
def rotr32 (x n : Nat) : Nat := x / 2 ^ n + x % 2 ^ n * 2 ^ (32 - n)

/-- SHA-256 big sigma 0. -/
def bsig0 (x : Nat) : Nat := rotr32 x 2 ^^^ rotr32 x 13 ^^^ rotr32 x 22

/-- SHA-256 big sigma 1. -/
def bsig1 (x : Nat) : Nat := rotr32 x 6 ^^^ rotr32 x 11 ^^^ rotr32 x 25

/-- SHA-256 small sigma 0. -/
def ssig0 (x : Nat) : Nat := rotr32 x 7 ^^^ rotr32 x 18 ^^^ x / 2 ^ 3

/-- SHA-256 small sigma 1. -/
def ssig1 (x : Nat) : Nat := rotr32 x 17 ^^^ rotr32 x 19 ^^^ x / 2 ^ 10

/-- The 64 SHA-256 round constants. -/
def sha_k : List Nat :=
  [1116352408, 1899447441, 3049323471, 3921009573, 961987163,
   1508970993, 2453635748, 2870763221, 3624381080, 310598401,
   607225278, 1426881987, 1925078388, 2162078206, 2614888103,
   3248222580, 3835390401, 4022224774, 264347078, 604807628,
   770255983, 1249150122, 1555081692, 1996064986, 2554220882,
   2821834349, 2952996808, 3210313671, 3336571891, 3584528711,
   113926993, 338241895, 666307205, 773529912, 1294757372,
   1396182291, 1695183700, 1986661051, 2177026350, 2456956037,
   2730485921, 2820302411, 3259730800, 3345764771, 3516065817,
   3600352804, 4094571909, 275423344, 430227734, 506948616,
   659060556, 883997877, 958139571, 1322822218, 1537002063,
   1747873779, 1955562222, 2024104815, 2227730452, 2361852424,
   2428436474, 2756734187, 3204031479, 3329325298]

/-- The SHA-256 initial hash state. -/
def sha_h0 : List Nat :=
  [1779033703, 3144134277, 1013904242, 2773480762,
   1359893119, 2600822924, 528734635, 1541459225]

/-- Group a byte string into big-endian 32-bit words. -/
def to_words : List Nat → List Nat
  | a :: b :: c :: d :: rest => (((a * 256 + b) * 256 + c) * 256 + d) :: to_words rest
  | _ => []

/-- The `k` big-endian bytes of `n` (most significant first). -/
def be_bytes : Nat → Nat → List Nat
  | 0, _ => []
  | k + 1, n => n / 2 ^ (8 * k) % 256 :: be_bytes k n

/-- Extend a 16-word message block by `k` further schedule words. -/
def sha_extend (ws : List Nat) : Nat → List Nat
  | 0 => ws
  | k + 1 =>
      let n := ws.length
      sha_extend
        (ws ++ [w32 (ssig1 (ws.getD (n - 2) 0) + ws.getD (n - 7) 0 +
                     ssig0 (ws.getD (n - 15) 0) + ws.getD (n - 16) 0)]) k

/-- One SHA-256 round on the eight-word working state, given the schedule
word and round constant. -/
def sha_round (st : List Nat) (wk : Nat × Nat) : List Nat :=
  match st with
  | [a, b, c, d, e, f, g, h] =>
      let t1 := w32 (h + bsig1 e + ((e &&& f) ^^^ ((e ^^^ 4294967295) &&& g)) + wk.2 + wk.1)
      let t2 := w32 (bsig0 a + ((a &&& b) ^^^ (a &&& c) ^^^ (b &&& c)))
      [w32 (t1 + t2), a, b, c, w32 (d + t1), e, f, g]
  | _ => st

/-- SHA-256 compression of one 64-byte block into the hash state. -/
def sha_compress (h : List Nat) (block : List Nat) : List Nat :=
  let ws := sha_extend (to_words block) 48
  let out := (ws.zip sha_k).foldl sha_round h
  (h.zip out).map (fun p => w32 (p.1 + p.2))

/-- SHA-256 padding: append `0x80`, zeros to 56 mod 64 bytes, then the
64-bit big-endian bit length. -/
def sha256_pad (msg : List Nat) : List Nat :=
  msg ++ 128 :: (List.replicate ((120 - (msg.length + 1) % 64) % 64) 0 ++
    be_bytes 8 (8 * msg.length))

/-- Fold the compression function over `k` consecutive 64-byte blocks. -/
def sha256_blocks : Nat → List Nat → List Nat → List Nat
  | 0, h, _ => h
  | k + 1, h, msg => sha256_blocks k (sha_compress h (msg.take 64)) (msg.drop 64)

/-- SHA-256 of a byte string, as 32 digest bytes. -/
def sha256 (msg : List Nat) : List Nat :=
  let p := sha256_pad msg
  (sha256_blocks (p.length / 64) sha_h0 p).foldr (fun w acc => be_bytes 4 w ++ acc) []

/-- HMAC-SHA256 (Python's `hmac.new(key, msg, hashlib.sha256)`): pad or hash
the key to the 64-byte block size, then `H((k xor opad) ++ H((k xor ipad) ++ msg))`. -/
def hmac_sha256 (key msg : List Nat) : List Nat :=
  let k0 := if 64 < key.length then sha256 key else key
  let kp := k0 ++ List.replicate (64 - k0.length) 0
  sha256 ((kp.map (fun b => b ^^^ 92)) ++ sha256 ((kp.map (fun b => b ^^^ 54)) ++ msg))

/-- The lowercase hexadecimal digit characters. -/
def hex_chars : List Char := "0123456789abcdef".data

/-- Lowercase hex rendering of a byte string (Python's `hexdigest()`). -/
def hexdigest (bs : List Nat) : String :=
  String.mk (bs.foldr (fun b acc => hex_chars.getD (b / 16) '0' :: hex_chars.getD (b % 16) '0' :: acc) [])

/-- `Client._generate_signature`: canonicalize the data, interpolate
`path/nonce/query`, UTF-8 encode, base64 encode, and HMAC-SHA256 under the
UTF-8 secret, returning the lowercase hex digest. -/
def generate_signature (api_secret path : String) (data : Params) (nonce : Nat) : String :=
  let query_string := order_params_for_sig data
  let sig_str := utf8 (path ++ "/" ++ Nat.repr nonce ++ "/" ++ query_string)
  hexdigest (hmac_sha256 (utf8 api_secret) (b64encode sig_str))

/-- The spec's five-step `sign(path, params, nonce, secret)` operation,
transcribed from §4.1 of the specification for comparison with
`generate_signature`. -/
def sign_spec (path : String) (params : Params) (nonce : Nat) (secret : String) : String :=
  hexdigest (hmac_sha256 (utf8 secret)
    (b64encode (utf8 (path ++ "/" ++ Nat.repr nonce ++ "/" ++ order_params_for_sig params))))

/-- A parsed JSON value, as returned by `response.json()`. JSON numbers are
modelled as integers (every number in the client's envelopes is one). -/
inductive Json where
  | null : Json
  | bool : Bool → Json
  | num : Int → Json
  | str : String → Json
  | arr : List Json → Json
  | obj : List (String × Json) → Json

/-- Substring test on character lists (Python's `needle in haystack` for
strings). -/
def is_substr (needle hay : List Char) : Bool :=
  match hay with
  | [] => needle.isEmpty
  | _ :: rest => needle.isPrefixOf hay || is_substr needle rest

/-- Python's `k in j` on a parsed JSON value: key membership on a dict,
element membership on a list, substring test on a string; `TypeError`
(modelled as `Except.error`) on numbers, booleans and `None`. -/
def py_contains (k : String) : Json → Except Unit Bool
  | .obj fields => .ok (fields.any (fun p => p.1 == k))
  | .arr elems => .ok (elems.any (fun j => match j with | .str s => s == k | _ => false))
  | .str s => .ok (is_substr k.data s.data)
  | _ => .error ()

/-- Python's `j[k]` for a string key: dict lookup on a dict (first matching
field), `TypeError` / `KeyError` (modelled as `Except.error`) otherwise. -/
def py_index (k : String) : Json → Except Unit Json
  | .obj fields =>
      match fields.find? (fun p => p.1 == k) with
      | some p => .ok p.2
      | Option.none => .error ()
  | _ => .error ()

/-- An HTTP response as `_handle_response` observes it: the status code, the
result of attempting to parse the body as JSON (`none` when the body is not
valid JSON), and the raw body text. -/
structure HttpResponse where
  status : Nat
  parsed : Option Json
  text : String

/-- The outcome of `_handle_response`: a returned value, or one of the
raised exceptions (`raise Exception(response)` on a bad status,
`raise Exception('Invalid Response: ...')` on a parse failure, or an
uncaught `TypeError` from `in` / `[]` on a non-container JSON value). -/
inductive HandleResult where
  | ok : Json → HandleResult
  | http_status_error : HttpResponse → HandleResult
  | invalid_response_error : String → HandleResult
  | type_error : HandleResult

/-- First binding of key `k` in a JSON object's field list. -/
def find_field (fields : List (String × Json)) (k : String) : Option Json :=
  (fields.find? (fun p => p.1 == k)).map (fun p => p.2)

/-- The body of `_handle_response`'s `try` block after a successful parse:
reset the timestamp, record `json['timestamp']` when present, and return
`json['data']` when present, else the whole value. Returns the result
(`Except.error` for an uncaught `TypeError`) and the new timestamp state. -/
def handle_parsed (j : Json) : Except Unit Json × Option Json :=
  match py_contains "timestamp" j with
  | .error _ => (.error (), Option.none)
  | .ok tb =>
      match (if tb then (py_index "timestamp" j).map some else .ok Option.none) with
      | .error _ => (.error (), Option.none)
      | .ok ts =>
          match py_contains "data" j with
          | .error _ => (.error (), ts)
          | .ok db =>
              if db then
                match py_index "data" j with
                | .error _ => (.error (), ts)
                | .ok v => (.ok v, ts)
              else (.ok j, ts)

/-- Python's `str(status).startswith('2')`: the decimal rendering's first
character is `'2'`. -/
def starts_with_2 (s : String) : Bool :=
  match s.data with
  | [] => false
  | c :: _ => c == '2'

/-- `Client._handle_response`, with the mutable `_last_timestamp` field made
an explicit state: raise on a non-2xx status (before touching the state),
raise on a parse failure (also before touching the state), otherwise unwrap
the envelope via `handle_parsed`. -/
def handle_response (last_timestamp : Option Json) (response : HttpResponse) :
    HandleResult × Option Json :=
  if starts_with_2 (Nat.repr response.status) then
    match response.parsed with
    | Option.none => (.invalid_response_error ("Invalid Response: " ++ response.text), last_timestamp)
    | some j =>
        match handle_parsed j with
        | (.ok v, ts) => (.ok v, ts)
        | (.error _, ts) => (.type_error, ts)
  else (.http_status_error response, last_timestamp)

/-- `Client._create_path`: prefix the endpoint with the API version
(the `method` argument is unused, as in the source). -/
def create_path (method path : String) : String := "/" ++ "v1" ++ "/" ++ path

/-- `Client._create_uri`: prefix the versioned path with the base URL. -/
def create_uri (path : String) : String := "https://api.kucoin.com" ++ path

/-- The outgoing request built by `Client._request`: the URI, the
per-request headers, and the parameters as either a query string
(`params`) or a request body (`data`). -/
structure BuiltRequest where
  uri : String
  headers : List (String × String)
  query_params : Option Params
  body_data : Option Params
deriving DecidableEq, Repr

/-- `Client._request` up to the transport call: build the versioned path
and URI, attach the nonce and signature headers when `signed`, and move the
data to the query string exactly when the method is `get` and the data is
non-empty. The nonce (epoch milliseconds in the source) is an input. -/
def build_request (api_secret method path : String) (signed : Bool) (nonce : Nat)
    (data : Params) : BuiltRequest :=
  let full_path := create_path method path
  let uri := create_uri full_path
  let headers :=
    if signed then
      [("KC-API-NONCE", Nat.repr nonce),
       ("KC-API-SIGNATURE", generate_signature api_secret full_path data nonce)]
    else []
  if data ≠ [] ∧ method = "get" then
    { uri := uri, headers := headers, query_params := some data, body_data := Option.none }
  else
    { uri := uri, headers := headers, query_params := Option.none, body_data := some data }

/-- The parameter mapping a built request actually transmits, whether as a
query string or as a body. -/
def sent_params (r : BuiltRequest) : Params :=
  match r.query_params with
  | some p => p
  | Option.none => r.body_data.getD []

/-- The data dict built by `Client.get_all_balances(limit, page)`. -/
def get_all_balances_data (limit page : PyVal) : Params :=
  (if limit.truthy then [("limit", limit)] else []) ++
    (if page.truthy then [("page", page)] else [])

/-- The data dict built by `Client.get_deposits(coin, status, limit, page)`
(the coin goes into the path, not the dict). -/
def get_deposits_data (status limit page : PyVal) : Params :=
  ("type", PyVal.str "DEPOSIT") ::
    ((if status.truthy then [("status", status)] else []) ++
      (if limit.truthy then [("limit", limit)] else []) ++
        (if page.truthy then [("page", page)] else []))

/-- The key order maintained by `insert_kv`, as a relation on pairs. -/
def kv_le (p q : String × PyVal) : Prop := str_le p.1 q.1 = true

/-- Strict key order on pairs: keys weakly ordered and distinct. -/
def kv_ltk (p q : String × PyVal) : Prop := kv_le p q ∧ p.1 ≠ q.1

/-- The data dict built by `Client.get_dealt_orders(symbol, order_type,
limit, page, since, before)`. -/
def get_dealt_orders_data (symbol order_type limit page since before : PyVal) : Params :=
  (if symbol.truthy then [("symbol", symbol)] else []) ++
    (if order_type.truthy then [("type", order_type)] else []) ++
      (if limit.truthy then [("limit", limit)] else []) ++
        (if page.truthy then [("page", page)] else []) ++
          (if since.truthy then [("since", since)] else []) ++
            (if before.truthy then [("before", before)] else [])

/-! ### Properties of the key order -/

theorem char_eq_of_toNat_eq {a b : Char} (h : a.toNat = b.toNat) : a = b :=
  Char.ext (UInt32.ext h)

theorem chars_le_cons_iff (a b : Char) (as bs : List Char) :
    chars_le (a :: as) (b :: bs) = true ↔
      a.toNat < b.toNat ∨ (a.toNat = b.toNat ∧ chars_le as bs = true) := by
  simp only [chars_le]
  split_ifs with h1 h2
  · exact iff_of_true rfl (Or.inl h1)
  · simp only [Bool.false_eq_true, false_iff]
    rintro (h | ⟨h, -⟩) <;> omega
  · have heq : a.toNat = b.toNat := by omega
    simp [heq]

theorem chars_le_total (as bs : List Char) :
    chars_le as bs = true ∨ chars_le bs as = true := by
  induction as generalizing bs with
  | nil => exact Or.inl rfl
  | cons a as ih =>
    cases bs with
    | nil => exact Or.inr rfl
    | cons b bs =>
      rcases Nat.lt_trichotomy a.toNat b.toNat with h | h | h
      · exact Or.inl ((chars_le_cons_iff a b as bs).mpr (Or.inl h))
      · rcases ih bs with h' | h'
        · exact Or.inl ((chars_le_cons_iff a b as bs).mpr (Or.inr ⟨h, h'⟩))
        · exact Or.inr ((chars_le_cons_iff b a bs as).mpr (Or.inr ⟨h.symm, h'⟩))
      · exact Or.inr ((chars_le_cons_iff b a bs as).mpr (Or.inl h))

theorem chars_le_trans {as bs cs : List Char} (h1 : chars_le as bs = true)
    (h2 : chars_le bs cs = true) : chars_le as cs = true := by
  induction as generalizing bs cs with
  | nil => rfl
  | cons a as ih =>
    cases bs with
    | nil => simp [chars_le] at h1
    | cons b bs =>
      cases cs with
      | nil => simp [chars_le] at h2
      | cons c cs =>
        rw [chars_le_cons_iff] at h1 h2 ⊢
        rcases h1 with h1 | ⟨e1, r1⟩ <;> rcases h2 with h2 | ⟨e2, r2⟩
        · exact Or.inl (by omega)
        · exact Or.inl (by omega)
        · exact Or.inl (by omega)
        · exact Or.inr ⟨by omega, ih r1 r2⟩

theorem chars_le_antisymm {as bs : List Char} (h1 : chars_le as bs = true)
    (h2 : chars_le bs as = true) : as = bs := by
  induction as generalizing bs with
  | nil =>
    cases bs with
    | nil => rfl
    | cons b bs => simp [chars_le] at h2
  | cons a as ih =>
    cases bs with
    | nil => simp [chars_le] at h1
    | cons b bs =>
      rw [chars_le_cons_iff] at h1 h2
      rcases h1 with h1 | ⟨e1, r1⟩ <;> rcases h2 with h2 | ⟨e2, r2⟩
      · exact absurd h2 (by omega)
      · exact absurd e2 (by omega)
      · exact absurd e1 (by omega)
      · rw [char_eq_of_toNat_eq e1, ih r1 r2]

theorem str_le_antisymm : ∀ {a b : String},
    str_le a b = true → str_le b a = true → a = b
  | ⟨as⟩, ⟨bs⟩, h1, h2 => congrArg String.mk (chars_le_antisymm h1 h2)

instance : IsAntisymm (String × PyVal) kv_ltk :=
  ⟨fun _ _ hab hba => (hab.2 (str_le_antisymm hab.1 hba.1)).elim⟩

/-! ### The canonical order is byte-wise on the UTF-8 encodings -/

theorem bytes_le_append (p u v : List Nat) :
    bytes_le (p ++ u) (p ++ v) = bytes_le u v := by
  induction p with
  | nil => rfl
  | cons a p ih => simp [bytes_le, lt_self_iff_false, ih]

theorem bytes_le_cons_of_lt {a b : Nat} (h : a < b) (u v : List Nat) :
    bytes_le (a :: u) (b :: v) = true := by
  simp [bytes_le, h]

theorem bytes_le_cons_eq (a : Nat) (u v : List Nat) :
    bytes_le (a :: u) (a :: v) = bytes_le u v := by
  simp [bytes_le, lt_self_iff_false]

theorem utf8Char_one {c : Nat} (h : c < 128) : utf8Char c = [c] := by
  rw [utf8Char, if_pos h]

theorem utf8Char_two {c : Nat} (h1 : ¬ c < 128) (h2 : c < 2048) :
    utf8Char c = [192 + c / 64, 128 + c % 64] := by
  rw [utf8Char, if_neg h1, if_pos h2]

theorem utf8Char_three {c : Nat} (h1 : ¬ c < 128) (h2 : ¬ c < 2048) (h3 : c < 65536) :
    utf8Char c = [224 + c / 4096, 128 + c / 64 % 64, 128 + c % 64] := by
  rw [utf8Char, if_neg h1, if_neg h2, if_pos h3]

theorem utf8Char_four {c : Nat} (h1 : ¬ c < 128) (h2 : ¬ c < 2048) (h3 : ¬ c < 65536) :
    utf8Char c = [240 + c / 262144, 128 + c / 4096 % 64, 128 + c / 64 % 64, 128 + c % 64] := by
  rw [utf8Char, if_neg h1, if_neg h2, if_neg h3]

theorem utf8Char_bytes_lt {x y : Nat} (h : x < y) (u v : List Nat) :
    bytes_le (utf8Char x ++ u) (utf8Char y ++ v) = true := by
  rcases Nat.lt_or_ge x 128 with hx1 | hx1
  · rw [utf8Char_one hx1]
    rcases Nat.lt_or_ge y 128 with hy1 | hy1
    · rw [utf8Char_one hy1]
      exact bytes_le_cons_of_lt h _ _
    · rcases Nat.lt_or_ge y 2048 with hy2 | hy2
      · rw [utf8Char_two (by omega) hy2]
        exact bytes_le_cons_of_lt (by omega) _ _
      · rcases Nat.lt_or_ge y 65536 with hy3 | hy3
        · rw [utf8Char_three (by omega) (by omega) hy3]
          exact bytes_le_cons_of_lt (by omega) _ _
        · rw [utf8Char_four (by omega) (by omega) (show ¬ y < 65536 by omega)]
          exact bytes_le_cons_of_lt (by omega) _ _
  · rcases Nat.lt_or_ge x 2048 with hx2 | hx2
    · rw [utf8Char_two (by omega) hx2]
      rcases Nat.lt_or_ge y 2048 with hy2 | hy2
      · rw [utf8Char_two (by omega) hy2]
        simp only [List.cons_append]
        rcases Nat.lt_or_ge (x / 64) (y / 64) with h2 | h2
        · exact bytes_le_cons_of_lt (by omega) _ _
        · have e : 192 + x / 64 = 192 + y / 64 := by omega
          rw [e, bytes_le_cons_eq]
          exact bytes_le_cons_of_lt (by omega) _ _
      · rcases Nat.lt_or_ge y 65536 with hy3 | hy3
        · rw [utf8Char_three (by omega) (by omega) hy3]
          exact bytes_le_cons_of_lt (by omega) _ _
        · rw [utf8Char_four (by omega) (by omega) (show ¬ y < 65536 by omega)]
          exact bytes_le_cons_of_lt (by omega) _ _
    · rcases Nat.lt_or_ge x 65536 with hx3 | hx3
      · rw [utf8Char_three (by omega) (by omega) hx3]
        rcases Nat.lt_or_ge y 65536 with hy3 | hy3
        · rw [utf8Char_three (by omega) (by omega) hy3]
          simp only [List.cons_append]
          rcases Nat.lt_or_ge (x / 4096) (y / 4096) with h2 | h2
          · exact bytes_le_cons_of_lt (by omega) _ _
          · have e : 224 + x / 4096 = 224 + y / 4096 := by omega
            rw [e, bytes_le_cons_eq]
            rcases Nat.lt_or_ge (x / 64 % 64) (y / 64 % 64) with h3 | h3
            · exact bytes_le_cons_of_lt (by omega) _ _
            · have e2 : 128 + x / 64 % 64 = 128 + y / 64 % 64 := by omega
              rw [e2, bytes_le_cons_eq]
              exact bytes_le_cons_of_lt (by omega) _ _
        · rw [utf8Char_four (by omega) (by omega) (show ¬ y < 65536 by omega)]
          exact bytes_le_cons_of_lt (by omega) _ _
      · rw [utf8Char_four (show ¬ x < 128 by omega) (by omega) (by omega),
          utf8Char_four (show ¬ y < 128 by omega) (by omega) (by omega)]
        simp only [List.cons_append]
        rcases Nat.lt_or_ge (x / 262144) (y / 262144) with h2 | h2
        · exact bytes_le_cons_of_lt (by omega) _ _
        · have e : 240 + x / 262144 = 240 + y / 262144 := by omega
          rw [e, bytes_le_cons_eq]
          rcases Nat.lt_or_ge (x / 4096 % 64) (y / 4096 % 64) with h3 | h3
          · exact bytes_le_cons_of_lt (by omega) _ _
          · have e2 : 128 + x / 4096 % 64 = 128 + y / 4096 % 64 := by omega
            rw [e2, bytes_le_cons_eq]
            rcases Nat.lt_or_ge (x / 64 % 64) (y / 64 % 64) with h4 | h4
            · exact bytes_le_cons_of_lt (by omega) _ _
            · have e3 : 128 + x / 64 % 64 = 128 + y / 64 % 64 := by omega
              rw [e3, bytes_le_cons_eq]
              exact bytes_le_cons_of_lt (by omega) _ _

theorem chars_le_bytes_le {cs ds : List Char} (h : chars_le cs ds = true) :
    bytes_le (utf8_chars cs) (utf8_chars ds) = true := by
  induction cs generalizing ds with
  | nil => rfl
  | cons a cs ih =>
    cases ds with
    | nil => simp [chars_le] at h
    | cons b ds =>
      rw [chars_le_cons_iff] at h
      show bytes_le (utf8Char a.toNat ++ utf8_chars cs)
        (utf8Char b.toNat ++ utf8_chars ds) = true
      rcases h with h | ⟨e, r⟩
      · exact utf8Char_bytes_lt h _ _
      · rw [e, bytes_le_append]
        exact ih r

/-! ### `sort_kv` sorts a permutation of its input -/

theorem insert_kv_perm (p : String × PyVal) (l : Params) :
    List.Perm (insert_kv p l) (p :: l) := by
  induction l with
  | nil => exact List.Perm.refl _
  | cons q rest ih =>
    rw [insert_kv]
    split_ifs with h
    · exact List.Perm.refl _
    · exact (ih.cons q).trans (List.Perm.swap p q rest)

theorem sort_kv_perm (l : Params) : List.Perm (sort_kv l) l := by
  induction l with
  | nil => exact List.Perm.refl _
  | cons p rest ih => exact (insert_kv_perm p (sort_kv rest)).trans (ih.cons p)

theorem insert_kv_pairwise {p : String × PyVal} {l : Params}
    (h : l.Pairwise kv_le) : (insert_kv p l).Pairwise kv_le := by
  induction l with
  | nil => simp [insert_kv, List.pairwise_cons]
  | cons q rest ih =>
    rw [List.pairwise_cons] at h
    obtain ⟨hq, hrest⟩ := h
    rw [insert_kv]
    split_ifs with hle
    · rw [List.pairwise_cons]
      refine ⟨?_, List.pairwise_cons.mpr ⟨hq, hrest⟩⟩
      intro x hx
      rcases List.mem_cons.mp hx with rfl | hx
      · exact hle
      · exact chars_le_trans hle (hq x hx)
    · rw [List.pairwise_cons]
      refine ⟨?_, ih hrest⟩
      intro x hx
      rcases List.mem_cons.mp ((insert_kv_perm p rest).mem_iff.mp hx) with rfl | hx'
      · rcases chars_le_total q.1.data x.1.data with h' | h'
        · exact h'
        · exact absurd h' hle
      · exact hq x hx'

theorem sort_kv_pairwise (l : Params) : (sort_kv l).Pairwise kv_le := by
  induction l with
  | nil => exact List.Pairwise.nil
  | cons p rest ih =>
    rw [sort_kv]
    exact insert_kv_pairwise ih

theorem pairwise_strict {l : Params} (hnd : (l.map Prod.fst).Nodup)
    (hs : l.Pairwise kv_le) : l.Pairwise kv_ltk := by
  have hne : l.Pairwise (fun p q => p.1 ≠ q.1) := List.pairwise_map.mp hnd
  exact (hs.and hne).imp (fun h => ⟨h.1, h.2⟩)

theorem sort_kv_eq_of_perm {l₁ l₂ : Params} (hp : List.Perm l₁ l₂)
    (hnd : (l₁.map Prod.fst).Nodup) : sort_kv l₁ = sort_kv l₂ := by
  have p1 := sort_kv_perm l₁
  have p2 := sort_kv_perm l₂
  have hperm : List.Perm (sort_kv l₁) (sort_kv l₂) := p1.trans (hp.trans p2.symm)
  have hnd1 : ((sort_kv l₁).map Prod.fst).Nodup := ((p1.map Prod.fst).nodup_iff).mpr hnd
  have hnd2 : ((sort_kv l₂).map Prod.fst).Nodup := ((hperm.map Prod.fst).nodup_iff).mp hnd1
  exact List.eq_of_perm_of_sorted hperm
    (pairwise_strict hnd1 (sort_kv_pairwise l₁))
    (pairwise_strict hnd2 (sort_kv_pairwise l₂))

/-! ### `handle_parsed` on JSON objects -/

theorem any_key_eq_isSome_find (fields : List (String × Json)) (k : String) :
    fields.any (fun p => p.1 == k) = (fields.find? (fun p => p.1 == k)).isSome := by
  induction fields with
  | nil => rfl
  | cons f rest ih =>
    by_cases h : f.1 == k
    · simp [List.any_cons, List.find?, h]
    · simp [List.any_cons, List.find?, h, ih]

theorem handle_parsed_obj (fields : List (String × Json)) :
    handle_parsed (.obj fields) =
      ((match find_field fields "data" with
        | some v => Except.ok v
        | Option.none => Except.ok (.obj fields)), find_field fields "timestamp") := by
  simp only [handle_parsed, py_contains, py_index,
    any_key_eq_isSome_find, find_field]
  cases ht : fields.find? (fun p => p.1 == "timestamp") with
  | none =>
    cases hd : fields.find? (fun p => p.1 == "data") with
    | none => simp [ht, hd]
    | some pd => simp [ht, hd]
  | some pt =>
    cases hd : fields.find? (fun p => p.1 == "data") with
    | none => simp [ht, hd, Except.map]
    | some pd => simp [ht, hd, Except.map]

/-! ### The claims -/

set_option maxRecDepth 10000

/-- C1: for every path, parameter mapping, nonce and secret, the source's
signature generator returns the lowercase hex digest of HMAC-SHA256 whose key
is the UTF-8 encoding of the secret and whose message is the base64 encoding
of the UTF-8 bytes of the string path/nonce/canonical, with canonical the
canonicalized parameters — that is, it agrees with the spec's five-step sign
operation; moreover on the spec's worked example it produces the concrete
digest that pipeline yields. -/
theorem C1_sign_matches_spec :
    (∀ (path : String) (params : Params) (nonce : Nat) (secret : String),
      generate_signature secret path params nonce = sign_spec path params nonce secret) ∧
    generate_signature "s3cr3t" "/v1/order"
        [("symbol", PyVal.str "ETH-BTC"), ("type", PyVal.str "BUY"),
         ("price", PyVal.str "1.0"), ("amount", PyVal.str "2")] 1000 =
      "da869344c9b145fb9a8ef034d801c6f309389bdf36050cef2d791d8f5033d2a5" :=
  ⟨fun _ _ _ _ => rfl, by rfl⟩

/-- C2: canonicalization renders the mapping as key=value pairs joined by
the ampersand over a permutation of the input whose keys are sorted
ascending in the byte-wise order of their UTF-8 encodings; the empty mapping
yields the empty string, and the spec's example mapping yields exactly
amount=2&price=1.0&symbol=ETH-BTC&type=BUY. -/
theorem C2_canonicalize_sorted_query :
    order_params_for_sig [] = "" ∧
    (∀ data : Params,
      order_params_for_sig data =
        String.intercalate "&" ((sort_kv data).map (fun kv => kv.1 ++ "=" ++ kv.2.pyStr)) ∧
      List.Perm (sort_kv data) data ∧
      (sort_kv data).Pairwise (fun p q => bytes_le (utf8 p.1) (utf8 q.1) = true)) ∧
    order_params_for_sig
        [("symbol", PyVal.str "ETH-BTC"), ("type", PyVal.str "BUY"),
         ("price", PyVal.str "1.0"), ("amount", PyVal.str "2")] =
      "amount=2&price=1.0&symbol=ETH-BTC&type=BUY" := by
  refine ⟨rfl, fun data => ⟨rfl, sort_kv_perm data, ?_⟩, by rfl⟩
  exact (sort_kv_pairwise data).imp (fun h => chars_le_bytes_le h)

/-- C3: canonicalization is order-independent — two parameter lists that
hold exactly the same key/value pairs (a permutation, with no duplicate
keys, as in a Python dict) canonicalize to identical output. -/
theorem C3_canonicalize_order_independent {l₁ l₂ : Params}
    (hperm : List.Perm l₁ l₂) (hnd : (l₁.map Prod.fst).Nodup) :
    order_params_for_sig l₁ = order_params_for_sig l₂ := by
  unfold order_params_for_sig
  rw [sort_kv_eq_of_perm hperm hnd]

/-- Witness for C3 at a concrete pair of permuted two-entry mappings. -/
theorem C3_witness :
    List.Perm [("b", PyVal.int 1), ("a", PyVal.int 2)]
      [("a", PyVal.int 2), ("b", PyVal.int 1)] ∧
    ([("b", PyVal.int 1), ("a", PyVal.int 2)].map Prod.fst).Nodup ∧
    order_params_for_sig [("b", PyVal.int 1), ("a", PyVal.int 2)] =
      order_params_for_sig [("a", PyVal.int 2), ("b", PyVal.int 1)] :=
  ⟨List.Perm.swap ("a", PyVal.int 2) ("b", PyVal.int 1) [], by decide,
    C3_canonicalize_order_independent
      (List.Perm.swap ("a", PyVal.int 2) ("b", PyVal.int 1) []) (by decide)⟩

/-- C4: on a 2xx response whose body parses as a JSON object, the handler
returns the value of the data field when present and otherwise the full
parsed object, and the new last-seen timestamp is the object's timestamp
field when present and absent otherwise. -/
theorem C4_handle_response_envelope (st : Option Json) (status : Nat)
    (fields : List (String × Json)) (text : String)
    (h2 : starts_with_2 (Nat.repr status) = true) :
    handle_response st ⟨status, some (.obj fields), text⟩ =
      ((match find_field fields "data" with
        | some v => HandleResult.ok v
        | Option.none => HandleResult.ok (.obj fields)),
       find_field fields "timestamp") := by
  unfold handle_response
  rw [if_pos h2]
  show (match handle_parsed (.obj fields) with
    | (.ok v, ts) => (HandleResult.ok v, ts)
    | (.error _, ts) => (HandleResult.type_error, ts)) = _
  rw [handle_parsed_obj]
  cases find_field fields "data" <;> rfl

/-- Witness for C4: the spec's two concrete envelopes — a body with data
and timestamp fields returns the data value and records 42, and a body with
neither returns the full object and leaves the timestamp absent. -/
theorem C4_witness :
    handle_response (some (Json.num 7))
        ⟨200, some (.obj [("data", .obj [("balance", .num 5)]), ("timestamp", .num 42)]), "t"⟩ =
      (.ok (.obj [("balance", .num 5)]), some (.num 42)) ∧
    handle_response (some (Json.num 7))
        ⟨200, some (.obj [("coins", .arr [.str "BTC", .str "ETH"])]), "t"⟩ =
      (.ok (.obj [("coins", .arr [.str "BTC", .str "ETH"])]), Option.none) :=
  ⟨(C4_handle_response_envelope (some (Json.num 7)) 200
      [("data", .obj [("balance", .num 5)]), ("timestamp", .num 42)] "t" rfl).trans rfl,
   (C4_handle_response_envelope (some (Json.num 7)) 200
      [("coins", .arr [.str "BTC", .str "ETH"])] "t" rfl).trans rfl⟩

/-- C5: when the status code's decimal rendering does not start with the
digit 2 the handler raises HttpStatusError carrying the raw response,
whatever the body holds; when it does start with 2 the result is never an
HttpStatusError. -/
theorem C5_handle_response_status (st : Option Json) (r : HttpResponse) :
    (starts_with_2 (Nat.repr r.status) = false →
      handle_response st r = (.http_status_error r, st)) ∧
    (starts_with_2 (Nat.repr r.status) = true →
      ∀ r' : HttpResponse, (handle_response st r).1 ≠ .http_status_error r') := by
  constructor
  · intro h
    unfold handle_response
    rw [if_neg (by simp [h])]
  · intro h r'
    unfold handle_response
    rw [if_pos h]
    cases hp : r.parsed with
    | none => simp
    | some j =>
      rcases hj : handle_parsed j with ⟨res, ts⟩
      cases res <;> simp [hj]

/-- Witness for C5: a 404 raises HttpStatusError with the raw response even
though its body is unparseable, and a 200 never yields HttpStatusError. -/
theorem C5_witness :
    handle_response Option.none ⟨404, Option.none, "x"⟩ =
      (.http_status_error ⟨404, Option.none, "x"⟩, Option.none) ∧
    (handle_response Option.none ⟨200, some (.obj []), "y"⟩).1 ≠
      .http_status_error ⟨200, some (.obj []), "y"⟩ :=
  ⟨(C5_handle_response_status Option.none ⟨404, Option.none, "x"⟩).1 rfl,
   (C5_handle_response_status Option.none ⟨200, some (.obj []), "y"⟩).2 rfl
     ⟨200, some (.obj []), "y"⟩⟩

/-- C6: on a 2xx response whose body is not valid JSON the handler raises
InvalidResponseError carrying the raw response text, and when the body is
valid JSON no InvalidResponseError is ever raised. -/
theorem C6_handle_response_invalid (st : Option Json) (r : HttpResponse)
    (h2 : starts_with_2 (Nat.repr r.status) = true) :
    (r.parsed = Option.none →
      handle_response st r =
        (.invalid_response_error ("Invalid Response: " ++ r.text), st)) ∧
    (∀ j, r.parsed = some j →
      ∀ s, (handle_response st r).1 ≠ .invalid_response_error s) := by
  unfold handle_response
  rw [if_pos h2]
  constructor
  · intro hp
    rw [hp]
  · intro j hp s
    rw [hp]
    rcases hj : handle_parsed j with ⟨res, ts⟩
    cases res <;> simp [hj]

/-- Witness for C6: a 200 whose body fails to parse raises
InvalidResponseError with the raw text, and a 200 with a valid JSON body
(here a bare number, on which the handler instead hits a TypeError) never
yields InvalidResponseError. -/
theorem C6_witness :
    handle_response Option.none ⟨200, Option.none, "oops"⟩ =
      (.invalid_response_error ("Invalid Response: " ++ "oops"), Option.none) ∧
    (handle_response Option.none ⟨200, some (.num 3), ""⟩).1 ≠
      .invalid_response_error "z" :=
  ⟨(C6_handle_response_invalid Option.none ⟨200, Option.none, "oops"⟩ rfl).1 rfl,
   (C6_handle_response_invalid Option.none ⟨200, some (.num 3), ""⟩ rfl).2
     (.num 3) rfl "z"⟩

/-- C7 counterexample: an invocation of the handler that fails with
HttpStatusError leaves a previously recorded timestamp in place — the state
after the call is some 7, not absent, although no parsed object of that
invocation contained a timestamp field. -/
theorem C7_counterexample :
    (handle_response (some (Json.num 7)) ⟨404, Option.none, "nf"⟩).1 =
      .http_status_error ⟨404, Option.none, "nf"⟩ ∧
    (handle_response (some (Json.num 7)) ⟨404, Option.none, "nf"⟩).2 = some (Json.num 7) ∧
    some (Json.num 7) ≠ (Option.none : Option Json) :=
  ⟨rfl, rfl, fun h => Option.noConfusion h⟩

/-- C7 amended: the last-seen timestamp is reset only once the status check
and the JSON parse have succeeded — an invocation failing with
HttpStatusError or InvalidResponseError leaves the timestamp state
unchanged, and an invocation whose body parses as a JSON object leaves it
equal to the object's timestamp field (absent when the field is absent). -/
theorem C7_timestamp_reset_amended (st : Option Json) (r : HttpResponse) :
    (starts_with_2 (Nat.repr r.status) = false → (handle_response st r).2 = st) ∧
    (r.parsed = Option.none → (handle_response st r).2 = st) ∧
    (∀ fields, starts_with_2 (Nat.repr r.status) = true →
      r.parsed = some (.obj fields) →
      (handle_response st r).2 = find_field fields "timestamp") := by
  refine ⟨?_, ?_, ?_⟩
  · intro h
    unfold handle_response
    rw [if_neg (by simp [h])]
  · intro hp
    unfold handle_response
    split_ifs with hs
    · rw [hp]
    · rfl
  · intro fields h2 hp
    unfold handle_response
    rw [if_pos h2, hp]
    show (match handle_parsed (.obj fields) with
      | (.ok v, ts) => (HandleResult.ok v, ts)
      | (.error _, ts) => (HandleResult.type_error, ts)).2 = _
    rw [handle_parsed_obj]
    cases find_field fields "data" <;> rfl

/-- Witness for C7's amended statement at a failed status check, a failed
parse, and a successful parse with a timestamp field. -/
theorem C7_amended_witness :
    (handle_response (some (Json.num 7)) ⟨404, Option.none, "nf"⟩).2 = some (Json.num 7) ∧
    (handle_response (some (Json.num 8)) ⟨200, Option.none, "bad"⟩).2 = some (Json.num 8) ∧
    (handle_response (some (Json.num 9)) ⟨200, some (.obj [("timestamp", .num 42)]), ""⟩).2 =
      find_field [("timestamp", .num 42)] "timestamp" :=
  ⟨(C7_timestamp_reset_amended (some (Json.num 7)) ⟨404, Option.none, "nf"⟩).1 rfl,
   (C7_timestamp_reset_amended (some (Json.num 8)) ⟨200, Option.none, "bad"⟩).2.1 rfl,
   (C7_timestamp_reset_amended (some (Json.num 9))
       ⟨200, some (.obj [("timestamp", .num 42)]), ""⟩).2.2
     [("timestamp", .num 42)] rfl rfl⟩

/-- C8: a dispatched request sends its parameters as a query string exactly
when the method is get and the mapping is non-empty; any other method, and a
get with an empty mapping, sends them as the request body. -/
theorem C8_request_params_placement (api_secret method path : String) (signed : Bool)
    (nonce : Nat) (data : Params) :
    (method = "get" → data ≠ [] →
      (build_request api_secret method path signed nonce data).query_params = some data ∧
      (build_request api_secret method path signed nonce data).body_data = Option.none) ∧
    (method ≠ "get" ∨ data = [] →
      (build_request api_secret method path signed nonce data).body_data = some data ∧
      (build_request api_secret method path signed nonce data).query_params = Option.none) := by
  constructor
  · intro hm hd
    simp only [build_request]
    rw [if_pos ⟨hd, hm⟩]
    exact ⟨rfl, rfl⟩
  · intro h
    have hc : ¬ (data ≠ [] ∧ method = "get") := by
      rintro ⟨hne, hm⟩
      rcases h with h | h
      · exact h hm
      · exact hne h
    simp only [build_request]
    rw [if_neg hc]
    exact ⟨rfl, rfl⟩

/-- Witness for C8: a get with one parameter goes to the query string, a
post with the same parameter and a get with no parameters go to the body. -/
theorem C8_witness :
    ((build_request "s" "get" "open/tick" false 0 [("symbol", PyVal.str "ETH-BTC")]).query_params =
        some [("symbol", PyVal.str "ETH-BTC")] ∧
      (build_request "s" "get" "open/tick" false 0 [("symbol", PyVal.str "ETH-BTC")]).body_data =
        Option.none) ∧
    ((build_request "s" "post" "order" true 1 [("symbol", PyVal.str "ETH-BTC")]).body_data =
        some [("symbol", PyVal.str "ETH-BTC")] ∧
      (build_request "s" "post" "order" true 1 [("symbol", PyVal.str "ETH-BTC")]).query_params =
        Option.none) ∧
    ((build_request "s" "get" "account/balance" true 2 []).body_data = some [] ∧
      (build_request "s" "get" "account/balance" true 2 []).query_params = Option.none) :=
  ⟨(C8_request_params_placement "s" "get" "open/tick" false 0
      [("symbol", PyVal.str "ETH-BTC")]).1 rfl (by simp),
   (C8_request_params_placement "s" "post" "order" true 1
      [("symbol", PyVal.str "ETH-BTC")]).2 (Or.inl (by simp)),
   (C8_request_params_placement "s" "get" "account/balance" true 2 []).2 (Or.inr rfl)⟩

/-- C9: a signed request's KC-API-NONCE header is exactly the decimal string
of the nonce interpolated into the signed message, and its KC-API-SIGNATURE
header is the signature over exactly the parameter mapping the request
transmits (query string or body), under that same nonce. -/
theorem C9_nonce_signature_consistency (api_secret method path : String)
    (nonce : Nat) (data : Params) :
    sent_params (build_request api_secret method path true nonce data) = data ∧
    (build_request api_secret method path true nonce data).headers =
      [("KC-API-NONCE", Nat.repr nonce),
       ("KC-API-SIGNATURE",
         generate_signature api_secret (create_path method path)
           (sent_params (build_request api_secret method path true nonce data)) nonce)] := by
  have hs : sent_params (build_request api_secret method path true nonce data) = data := by
    simp only [build_request, sent_params]
    split_ifs <;> rfl
  refine ⟨hs, ?_⟩
  rw [hs]
  simp only [build_request]
  split_ifs <;> rfl

/-- C10: every falsy optional argument (None, zero, the empty string) is
omitted from the built data dict of get_all_balances, get_deposits and
get_dealt_orders, in every optional slot, so the built request coincides
with the one for the omitted parameter. -/
theorem C10_falsy_optional_omitted (v : PyVal) (hv : v.truthy = false) :
    (∀ p, get_all_balances_data v p = get_all_balances_data PyVal.none p) ∧
    (∀ l, get_all_balances_data l v = get_all_balances_data l PyVal.none) ∧
    (∀ l p, get_deposits_data v l p = get_deposits_data PyVal.none l p) ∧
    (∀ s p, get_deposits_data s v p = get_deposits_data s PyVal.none p) ∧
    (∀ s l, get_deposits_data s l v = get_deposits_data s l PyVal.none) ∧
    (∀ o l p s b, get_dealt_orders_data v o l p s b =
      get_dealt_orders_data PyVal.none o l p s b) ∧
    (∀ s l p q b, get_dealt_orders_data s v l p q b =
      get_dealt_orders_data s PyVal.none l p q b) ∧
    (∀ s o p q b, get_dealt_orders_data s o v p q b =
      get_dealt_orders_data s o PyVal.none p q b) ∧
    (∀ s o l q b, get_dealt_orders_data s o l v q b =
      get_dealt_orders_data s o l PyVal.none q b) ∧
    (∀ s o l p b, get_dealt_orders_data s o l p v b =
      get_dealt_orders_data s o l p PyVal.none b) ∧
    (∀ s o l p q, get_dealt_orders_data s o l p q v =
      get_dealt_orders_data s o l p q PyVal.none) ∧
    (∀ sec path signed nonce p,
      build_request sec "get" path signed nonce (get_all_balances_data v p) =
        build_request sec "get" path signed nonce (get_all_balances_data PyVal.none p)) := by
  have hn : PyVal.none.truthy = false := rfl
  refine ⟨?_, ?_, ?_, ?_, ?_, ?_, ?_, ?_, ?_, ?_, ?_, ?_⟩ <;> intros <;>
    simp [get_all_balances_data, get_deposits_data, get_dealt_orders_data, hv, hn]

/-- Witness for C10: limit 0 and the empty string behave as omitted in
get_all_balances, and page 0 likewise. -/
theorem C10_witness :
    (PyVal.int 0).truthy = false ∧
    (PyVal.str "").truthy = false ∧
    get_all_balances_data (PyVal.int 0) (PyVal.int 2) =
      get_all_balances_data PyVal.none (PyVal.int 2) ∧
    get_all_balances_data (PyVal.int 5) (PyVal.int 0) =
      get_all_balances_data (PyVal.int 5) PyVal.none ∧
    get_dealt_orders_data (PyVal.str "ETH-BTC") (PyVal.str "") (PyVal.int 10)
        PyVal.none PyVal.none PyVal.none =
      get_dealt_orders_data (PyVal.str "ETH-BTC") PyVal.none (PyVal.int 10)
        PyVal.none PyVal.none PyVal.none :=
  ⟨rfl, rfl,
   (C10_falsy_optional_omitted (PyVal.int 0) rfl).1 (PyVal.int 2),
   (C10_falsy_optional_omitted (PyVal.int 0) rfl).2.1 (PyVal.int 5),
   (C10_falsy_optional_omitted (PyVal.str "") rfl).2.2.2.2.2.2.1
     (PyVal.str "ETH-BTC") (PyVal.int 10) PyVal.none PyVal.none PyVal.none⟩
